import Mathlib

/-!
Shallow embedding of the import-and-reconciliation pipeline and the
interaction controller implemented in `src/src/App.tsx` (the single source
file of the repository).  JavaScript numbers are modelled as `JSNum` (NaN or
a finite rational value), JavaScript string-or-undefined values as
`Option String`, and the externally owned graph object as an explicit
`Store` record threaded through the handlers.
-/

/-- A JavaScript number: either NaN or a finite rational value.  The source
never produces infinities, so they are not modelled. -/
inductive JSNum where
  | nan : JSNum
  | num : Rat → JSNum
deriving DecidableEq

/-- JavaScript `+` on numbers: NaN is absorbing. -/
def jsAdd : JSNum → JSNum → JSNum
  | JSNum.num a, JSNum.num b => JSNum.num (a + b)
  | _, _ => JSNum.nan

/-- JavaScript truthiness of a string-or-undefined value: `undefined`,
`null` and the empty string are falsy, every other string is truthy. -/
def jsTruthy : Option String → Bool
  | none => false
  | some s => !(s == "")

/-- JavaScript `a || d` where `a` is a string-or-undefined value and `d`
a string default: the default is taken when `a` is absent or empty. -/
def jsOr (a : Option String) (d : String) : String :=
  if jsTruthy a then a.getD d else d

/-- JavaScript `a || undefined`: an absent or empty string collapses to
`undefined`, any other string is kept. -/
def jsOrUndef (a : Option String) : Option String :=
  if jsTruthy a then a else none

/-- Value of a list of decimal digit characters. -/
def digitsVal (ds : List Char) : Nat :=
  ds.foldl (fun acc c => acc * 10 + (c.toNat - '0'.toNat)) 0

/-- Leading-whitespace characters skipped by the JavaScript number parsers. -/
def isWs (c : Char) : Bool :=
  c == ' ' || c == '\t' || c == '\n' || c == '\r'

/-- Model of JavaScript `parseInt(s, 10)`: skip leading whitespace, read an
optional sign, then the longest prefix of decimal digits; if that prefix is
empty the result is NaN, otherwise its signed value. -/
def parseIntJS (s : String) : JSNum :=
  let cs := s.toList.dropWhile isWs
  let signed : Int × List Char :=
    match cs with
    | '-' :: rest => (-1, rest)
    | '+' :: rest => (1, rest)
    | _ => (1, cs)
  let ds := signed.2.takeWhile Char.isDigit
  if ds.isEmpty then JSNum.nan
  else JSNum.num ((signed.1 * (digitsVal ds : Int) : Int) : Rat)

/-- Model of JavaScript `parseFloat(s)` on plain decimal notation: skip
leading whitespace, read an optional sign, an integer digit prefix and an
optional fractional digit prefix after a dot; if no digit was read the
result is NaN.  Exponent notation and `Infinity` are not modelled; no input
this development evaluates uses them. -/
def parseFloatJS (s : String) : JSNum :=
  let cs := s.toList.dropWhile isWs
  let signed : Rat × List Char :=
    match cs with
    | '-' :: rest => (-1, rest)
    | '+' :: rest => (1, rest)
    | _ => (1, cs)
  let ipart := signed.2.takeWhile Char.isDigit
  let rest := signed.2.dropWhile Char.isDigit
  let fpart :=
    match rest with
    | '.' :: r => r.takeWhile Char.isDigit
    | _ => []
  if ipart.isEmpty && fpart.isEmpty then JSNum.nan
  else JSNum.num (signed.1 * ((digitsVal ipart : Rat) + (digitsVal fpart : Rat) / ((10 : Rat) ^ fpart.length)))

/-- `parseInt` applied to a possibly-null attribute value: `String(null)`
and `String(undefined)` start with no digit, so an absent value parses to
NaN. -/
def parseIntOpt (a : Option String) : JSNum :=
  match a with
  | some s => parseIntJS s
  | none => JSNum.nan

/-- `parseFloat` applied to a possibly-absent field, same convention as
`parseIntOpt`. -/
def parseFloatOpt (a : Option String) : JSNum :=
  match a with
  | some s => parseFloatJS s
  | none => JSNum.nan

/-- A parsed markup element as seen through `getAttribute`: a finite
attribute association list.  `DOMParser` itself is a browser collaborator;
the embedding starts from the element lists that
`getElementsByTagName('node')` and `('edge')` return, in document order. -/
structure XmlElem where
  attrList : List (String × String)
deriving DecidableEq

/-- `element.getAttribute(k)`: the attribute's string value, or null
(modelled as `none`) when the attribute is absent. -/
def XmlElem.getAttribute (e : XmlElem) (k : String) : Option String :=
  (e.attrList.find? (fun p => p.1 == k)).map (fun p => p.2)

/-- A parsed markup document: its `node` elements and `edge` elements, each
in document order. -/
structure XmlDoc where
  nodeElems : List XmlElem
  edgeElems : List XmlElem
deriving DecidableEq

/-- Runtime shape of the objects built in `processXML`'s `nodes` array.
`id`, `label` and `type` keep the string-or-null result of `getAttribute`
(the source's `!` assertion is compile-time only); the numeric fields hold
`parseInt` results and `fill`/`stroke` are already defaulted strings. -/
structure NodeData where
  id : Option String
  label : Option String
  x : JSNum
  y : JSNum
  type : Option String
  fill : String
  width : JSNum
  height : JSNum
  stroke : String
  strokeWidth : JSNum
deriving DecidableEq

/-- Runtime shape of the objects built in `processXML`'s `edges` array. -/
structure EdgeData where
  source : Option String
  target : Option String
  id : Option String
  name : Option String
  type : String
deriving DecidableEq

/-- The `node` record `processXML` builds from one markup element. -/
def mkXmlNodeData (e : XmlElem) : NodeData :=
  { id := e.getAttribute "id"
    label := e.getAttribute "label"
    x := parseIntOpt (e.getAttribute "x")
    y := parseIntOpt (e.getAttribute "y")
    type := e.getAttribute "type"
    fill := jsOr (e.getAttribute "fill") "#3366cc"
    width := parseIntJS (jsOr (e.getAttribute "width") "100")
    height := parseIntJS (jsOr (e.getAttribute "height") "100")
    stroke := jsOr (e.getAttribute "stroke") "#000"
    strokeWidth := parseIntJS (jsOr (e.getAttribute "strokeWidth") "1") }

/-- The `edge` record `processXML` builds from one markup element; edge type
defaults to "solid" when absent. -/
def mkXmlEdgeData (e : XmlElem) : EdgeData :=
  { source := e.getAttribute "source"
    target := e.getAttribute "target"
    id := jsOrUndef (e.getAttribute "id")
    name := jsOrUndef (e.getAttribute "name")
    type := jsOr (e.getAttribute "type") "solid" }

/-- A JavaScript value stored in an attribute payload: a string, a number,
or `undefined`. -/
inductive JSVal where
  | str : String → JSVal
  | num : JSNum → JSVal
  | undef : JSVal
deriving DecidableEq

/-- A string-or-undefined value used as a payload field. -/
def jsValOfOpt : Option String → JSVal
  | some s => JSVal.str s
  | none => JSVal.undef

/-- The fixed marker argument payload used by every edge the source adds. -/
structure MarkerArgs where
  size : JSNum
  fill : String
  stroke : String
  shape : String
deriving DecidableEq

/-- A marker decoration with its fixed arguments. -/
structure Marker where
  name : String
  args : MarkerArgs
deriving DecidableEq

/-- The circle source marker every added edge carries. -/
def markerCircle : Marker :=
  { name := "marker", args := { size := JSNum.num 8, fill := "purple", stroke := "purple", shape := "circle" } }

/-- The diamond target marker every added edge carries. -/
def markerDiamond : Marker :=
  { name := "marker", args := { size := JSNum.num 8, fill := "purple", stroke := "purple", shape := "diamond" } }

/-- The `attrs.body` payload of an inserted node. -/
structure BodyAttrs where
  fill : JSVal
  stroke : JSVal
  strokeWidth : JSVal
deriving DecidableEq

/-- The `attrs` payload of an inserted node: its body style and the text of
its `label` sub-payload. -/
structure NodeAttrs where
  body : BodyAttrs
  labelText : Option String
deriving DecidableEq

/-- The `attrs.line` payload of an inserted edge. -/
structure LineAttrs where
  stroke : String
  strokeWidth : JSNum
  strokeDasharray : Option String
deriving DecidableEq

/-- The `attrs.label` payload of an inserted edge, when one is supplied. -/
structure EdgeLabelAttrs where
  text : String
  fill : String
  fontSize : JSNum
deriving DecidableEq

/-- The `attrs` payload of an inserted edge; only the markup import supplies
the optional `label` sub-payload. -/
structure EdgeAttrs where
  line : LineAttrs
  sourceMarker : Marker
  targetMarker : Marker
  label : Option EdgeLabelAttrs
deriving DecidableEq

/-- A node as held by the live graph store. -/
structure StoreNode where
  id : Option String
  label : Option String
  x : JSNum
  y : JSNum
  width : JSNum
  height : JSNum
  shape : Option String
  attrs : NodeAttrs
deriving DecidableEq

/-- An edge as held by the live graph store: its terminals are identifier
references (`source: \x7b cell: ... \x7d` in the source). -/
structure StoreEdge where
  source : Option String
  target : Option String
  attrs : EdgeAttrs
deriving DecidableEq

/-- Model of the externally owned graph object: nodes and edges in
insertion order, plus a counter for store-assigned identifiers. -/
structure Store where
  nodes : List StoreNode
  edges : List StoreEdge
  fresh : Nat
deriving DecidableEq

/-- The store as created at startup. -/
def emptyStore : Store := { nodes := [], edges := [], fresh := 0 }

/-- `graph.clearCells()`: removes every node and edge. -/
def Store.clearCells (g : Store) : Store := { g with nodes := [], edges := [] }

/-- `graph.addNode`: inserts a node and returns the node actually stored;
when no identifier is requested the store assigns one (the spec's
`insertNode(NodeModel) -> storeAssignedId`). -/
def Store.addNode (g : Store) (n : StoreNode) : Store × StoreNode :=
  match n.id with
  | some _ => ({ g with nodes := g.nodes ++ [n] }, n)
  | none =>
    let assigned : StoreNode := { n with id := some ("cell-" ++ toString g.fresh) }
    ({ g with nodes := g.nodes ++ [assigned], fresh := g.fresh + 1 }, assigned)

/-- `graph.addEdge`: appends an edge to the store. -/
def Store.addEdge (g : Store) (e : StoreEdge) : Store :=
  { g with edges := g.edges ++ [e] }

/-- `graph.getCellById` restricted to nodes (the callers immediately check
`isNode()`). -/
def Store.getCellById (g : Store) (i : String) : Option StoreNode :=
  g.nodes.find? (fun n => n.id == some i)

/-- Dash pattern selection of the markup import, from the already-defaulted
edge type string. -/
def xmlDasharray (t : String) : Option String :=
  if t == "dashed" then some "5, 5" else if t == "dotted" then some "2, 2" else none

/-- The `addNode` payload the markup import builds for one node record:
rectangle-kind nodes get height forced to 50, all others keep the parsed
height. -/
def xmlNodeToStore (n : NodeData) : StoreNode :=
  { id := n.id
    label := n.label
    x := n.x
    y := n.y
    width := n.width
    height := if n.type = some "rectangle" then JSNum.num 50 else n.height
    shape := n.type
    attrs :=
      { body := { fill := JSVal.str n.fill, stroke := JSVal.str n.stroke,
                  strokeWidth := JSVal.num n.strokeWidth }
        labelText := n.label } }

/-- The `addEdge` payload the markup import builds for one edge record:
black line, dash pattern by type, fixed markers, and a label sub-payload
whose text is the edge name or the empty string. -/
def xmlEdgeToStore (e : EdgeData) : StoreEdge :=
  { source := e.source
    target := e.target
    attrs :=
      { line := { stroke := "#000", strokeWidth := JSNum.num 2,
                  strokeDasharray := xmlDasharray e.type }
        sourceMarker := markerCircle
        targetMarker := markerDiamond
        label := some { text := jsOr e.name "", fill := "#333", fontSize := JSNum.num 12 } } }

/-- The node records `processXML` builds: one per `node` element, in
document order. -/
def xmlNodeRecords (doc : XmlDoc) : List NodeData :=
  doc.nodeElems.map mkXmlNodeData

/-- The edge records `processXML` builds: one per `edge` element, in
document order. -/
def xmlEdgeRecords (doc : XmlDoc) : List EdgeData :=
  doc.edgeElems.map mkXmlEdgeData

/-- Insertion loop over the markup node records. -/
def insertXmlNodes : List NodeData → Store → Store
  | [], g => g
  | n :: ns, g => insertXmlNodes ns (g.addNode (xmlNodeToStore n)).1

/-- Insertion loop over the markup edge records. -/
def insertXmlEdges : List EdgeData → Store → Store
  | [], g => g
  | e :: es, g => insertXmlEdges es (g.addEdge (xmlEdgeToStore e))

/-- `processXML` after the external `DOMParser` step: build the node and
edge records, clear the store, insert every node in document order, then
insert every edge in document order.  No endpoint or field validation
happens anywhere on this path. -/
def processXML (doc : XmlDoc) (g : Store) : Store :=
  insertXmlEdges (xmlEdgeRecords doc) (insertXmlNodes (xmlNodeRecords doc) g.clearCells)

/-- A row of the node section as produced by the external CSV parser in
header mode: every field is a string when the column is present for the
row, and `undefined` otherwise. -/
structure CsvNodeRow where
  id : Option String
  label : Option String
  x : Option String
  y : Option String
  type : Option String
  fill : Option String
  width : Option String
  height : Option String
  stroke : Option String
  strokeWidth : Option String
deriving DecidableEq

/-- A row of the edge section as produced by the external CSV parser. -/
structure CsvEdgeRow where
  source : Option String
  target : Option String
  id : Option String
  name : Option String
  type : Option String
deriving DecidableEq

/-- The validity test of the tabular node loop:
`node.id && node.label && node.x !== undefined && node.y !== undefined &&
node.type`.  Note that only `id`, `label` and `type` are tested for
truthiness; `x` and `y` are only tested against `undefined`. -/
def csvNodeGuard (r : CsvNodeRow) : Bool :=
  jsTruthy r.id && jsTruthy r.label && r.x.isSome && r.y.isSome && jsTruthy r.type

/-- `node.strokeWidth || 1`: the raw string when truthy, the number 1
otherwise.  No numeric parse happens on this field on the tabular path. -/
def csvStrokeWidthVal (a : Option String) : JSVal :=
  if jsTruthy a then jsValOfOpt a else JSVal.num (JSNum.num 1)

/-- Dash pattern selection of the tabular import, from the optional edge
type field. -/
def csvDasharray (t : Option String) : Option String :=
  if t = some "dashed" then some "5, 5" else if t = some "dotted" then some "2, 2" else none

/-- The `addNode` payload the tabular path builds for a row that passed the
guard.  The row's fields are strings, so `.toString()` is the identity;
`width` and `height` default through `|| '100'`, the height of a
rectangle-kind row is forced to 50, `fill` defaults through `|| '#3366cc'`,
`stroke` is passed through unchanged, and `strokeWidth` through `|| 1`. -/
def csvNodeToStore (r : CsvNodeRow) : StoreNode :=
  { id := r.id
    label := r.label
    x := parseFloatOpt r.x
    y := parseFloatOpt r.y
    width := parseFloatJS (jsOr r.width "100")
    height := if r.type = some "rectangle" then JSNum.num 50 else parseFloatJS (jsOr r.height "100")
    shape := r.type
    attrs :=
      { body := { fill := JSVal.str (jsOr r.fill "#3366cc")
                  stroke := jsValOfOpt r.stroke
                  strokeWidth := csvStrokeWidthVal r.strokeWidth }
        labelText := r.label } }

/-- The validity test of the tabular edge loop: `edge.source && edge.target`
— field truthiness only, no endpoint resolution. -/
def csvEdgeGuard (e : CsvEdgeRow) : Bool :=
  jsTruthy e.source && jsTruthy e.target

/-- The `addEdge` payload the tabular path builds: purple line, dash pattern
by type, fixed markers, and no label sub-payload. -/
def csvEdgeToStore (e : CsvEdgeRow) : StoreEdge :=
  { source := e.source
    target := e.target
    attrs :=
      { line := { stroke := "purple", strokeWidth := JSNum.num 2,
                  strokeDasharray := csvDasharray e.type }
        sourceMarker := markerCircle
        targetMarker := markerDiamond
        label := none } }

/-- The tabular node loop: rows failing the guard are skipped with a
console diagnostic, the rest are inserted in row order. -/
def applyCsvNodeRows : List CsvNodeRow → Store → Store × List String
  | [], g => (g, [])
  | r :: rows, g =>
    if csvNodeGuard r then applyCsvNodeRows rows (g.addNode (csvNodeToStore r)).1
    else
      let res := applyCsvNodeRows rows g
      (res.1, "Invalid node data" :: res.2)

/-- The tabular edge loop: rows failing the guard are skipped with a
console diagnostic, the rest are inserted in row order. -/
def applyCsvEdgeRows : List CsvEdgeRow → Store → Store × List String
  | [], g => (g, [])
  | e :: rows, g =>
    if csvEdgeGuard e then applyCsvEdgeRows rows (g.addEdge (csvEdgeToStore e))
    else
      let res := applyCsvEdgeRows rows g
      (res.1, "Invalid edge data" :: res.2)

/-- `consHead c ps` prepends character `c` to the first piece of a split
result. -/
def consHead (c : Char) : List (List Char) → List (List Char)
  | [] => [[c]]
  | p :: ps => (c :: p) :: ps

/-- Model of JavaScript `csvContent.split('---')`: a left-to-right scan for
non-overlapping occurrences of the three-character separator. -/
def splitDashes : List Char → List (List Char)
  | [] => [[]]
  | '-' :: '-' :: '-' :: rest => [] :: splitDashes rest
  | c :: rest => consHead c (splitDashes rest)

/-- Whether the three-dash separator occurs anywhere in the text. -/
def hasDashes : List Char → Bool
  | '-' :: '-' :: '-' :: _ => true
  | _ :: rest => hasDashes rest
  | [] => false

/-- The fatal banner message of the tabular import. -/
def csvFormatError : String :=
  "Invalid CSV format. Please ensure nodes and edges are separated by \x22---\x22."

/-- `processCSV`.  `Papa.parse` is an external library and is passed in as
the two section parsers.  The result is the store together with the fatal
banner message (if any) and the list of per-record console diagnostics.
When the destructured first or second piece of the split is absent or
empty, the function reports the format error and returns before touching
the store; otherwise it clears the store and runs the node loop then the
edge loop. -/
def processCSV (papaNodes : String → List CsvNodeRow)
    (papaEdges : String → List CsvEdgeRow)
    (csvContent : String) (g : Store) : Store × Option String × List String :=
  let pieces := (splitDashes csvContent.toList).map (fun l => String.mk l)
  let nodesContent := pieces.get? 0
  let edgesContent := pieces.get? 1
  if !(jsTruthy nodesContent) || !(jsTruthy edgesContent) then
    (g, some csvFormatError, [])
  else
    let nodesData := papaNodes (nodesContent.getD "").trim
    let edgesData := papaEdges (edgesContent.getD "").trim
    let st1 := applyCsvNodeRows nodesData g.clearCells
    let st2 := applyCsvEdgeRows edgesData st1.1
    (st2.1, none, st1.2 ++ st2.2)

/-- The component state the interaction controller reads and writes: the
modal visibility flag and the selection slot. -/
structure AppState where
  showModal : Bool
  selectedNode : Option String
deriving DecidableEq

/-- The `attrs` payload of the synthetic edge `handleCopyNode` adds: black
dashed line and the fixed marker pair, no label sub-payload. -/
def copyEdgeAttrs : EdgeAttrs :=
  { line := { stroke := "#000", strokeWidth := JSNum.num 2, strokeDasharray := some "5, 5" }
    sourceMarker := markerCircle
    targetMarker := markerDiamond
    label := none }

/-- `handleCopyNode`: when a node is selected and found, re-add its
`shape/x/y/width/height/label/attrs` fields with the position offset by
(+100, +100) and no requested identifier (the store assigns one), then add
one dashed edge from the original to the copy.  In every case the modal is
closed; the selection slot is never written. -/
def handleCopyNode (g : Store) (st : AppState) : Store × AppState :=
  let gFinal :=
    match st.selectedNode with
    | some sel =>
      if sel == "" then g
      else
        match g.getCellById sel with
        | some clicked =>
          let dup : StoreNode :=
            { clicked with id := none
                           x := jsAdd clicked.x (JSNum.num 100)
                           y := jsAdd clicked.y (JSNum.num 100) }
          let ins := g.addNode dup
          ins.1.addEdge { source := clicked.id, target := ins.2.id, attrs := copyEdgeAttrs }
        | none => g
    | none => g
  (gFinal, { st with showModal := false })

/-! ### Concrete inputs used by the counterexamples and witnesses -/

/-- A valid tabular node row with identifier "a" and no optional styling. -/
def c1NodeRow : CsvNodeRow :=
  { id := some "a", label := some "A", x := some "1", y := some "2", type := some "circle",
    fill := none, width := none, height := none, stroke := none, strokeWidth := none }

/-- A tabular edge row from "a" to "b", where no node "b" exists. -/
def c1EdgeRow : CsvEdgeRow :=
  { source := some "a", target := some "b", id := none, name := none, type := none }

/-- A markup document with one node "a" and one edge from "a" to the
non-existent node "b". -/
def c1Doc : XmlDoc :=
  { nodeElems := [⟨[("id", "a"), ("label", "A"), ("x", "1"), ("y", "2"), ("type", "circle")]⟩]
    edgeElems := [⟨[("source", "a"), ("target", "b")]⟩] }

/-- A tabular node row omitting fill, stroke and strokeWidth. -/
def c2Row : CsvNodeRow :=
  { id := some "b", label := some "B", x := some "3", y := some "4", type := some "circle",
    fill := none, width := none, height := none, stroke := none, strokeWidth := none }

/-- A markup node element omitting fill, stroke and strokeWidth. -/
def c2Elem : XmlElem :=
  ⟨[("id", "b"), ("label", "B"), ("x", "3"), ("y", "4"), ("type", "circle")]⟩

/-- A markup node element whose width attribute is present but
non-numeric. -/
def c3Elem : XmlElem :=
  ⟨[("id", "a"), ("label", "A"), ("x", "1"), ("y", "2"), ("type", "circle"), ("width", "abc")]⟩

/-- A tabular node row whose width field is present but non-numeric. -/
def c3Row : CsvNodeRow :=
  { id := some "a", label := some "A", x := some "1", y := some "2", type := some "circle",
    fill := none, width := some "abc", height := none, stroke := none, strokeWidth := none }

/-- A markup node element with no width, height or strokeWidth attribute. -/
def c3DefaultElem : XmlElem :=
  ⟨[("id", "d"), ("label", "D"), ("x", "1"), ("y", "2"), ("type", "circle")]⟩

/-- A tabular node row with no width, height or strokeWidth value. -/
def c3DefaultRow : CsvNodeRow :=
  { id := some "d", label := some "D", x := some "1", y := some "2", type := some "circle",
    fill := none, width := none, height := none, stroke := none, strokeWidth := none }

/-- A markup node element whose x attribute is present but non-numeric. -/
def c4Elem : XmlElem :=
  ⟨[("id", "a"), ("label", "A"), ("x", "abc"), ("y", "2"), ("type", "circle")]⟩

/-- A markup document containing only `c4Elem`. -/
def c4Doc : XmlDoc := { nodeElems := [c4Elem], edgeElems := [] }

/-- A tabular node row whose x field is present but empty: it passes the
undefined-check of the guard yet parses to NaN. -/
def c4Row : CsvNodeRow :=
  { id := some "a", label := some "A", x := some "", y := some "2", type := some "circle",
    fill := none, width := none, height := none, stroke := none, strokeWidth := none }

/-- A node sitting in the store before a copy action. -/
def c7Node : StoreNode :=
  { id := some "n1", label := some "N", x := JSNum.num 10, y := JSNum.num 20,
    width := JSNum.num 100, height := JSNum.num 100, shape := some "circle",
    attrs := { body := { fill := JSVal.str "#3366cc", stroke := JSVal.str "#000",
                         strokeWidth := JSVal.num (JSNum.num 1) },
               labelText := some "N" } }

/-- A store holding just `c7Node`. -/
def c7Store : Store := { nodes := [c7Node], edges := [], fresh := 0 }

/-- The controller state after `c7Node` was clicked: dialog open, node
selected. -/
def c7State : AppState := { showModal := true, selectedNode := some "n1" }

/-- A tabular node row missing its identifier field. -/
def c8BadNodeRow : CsvNodeRow :=
  { id := none, label := some "B", x := some "1", y := some "2", type := some "circle",
    fill := none, width := none, height := none, stroke := none, strokeWidth := none }

/-- A valid tabular node row for the witness batch. -/
def c8GoodNodeRow : CsvNodeRow :=
  { id := some "g", label := some "G", x := some "5", y := some "6", type := some "circle",
    fill := none, width := none, height := none, stroke := none, strokeWidth := none }

/-- A tabular edge row missing its source field. -/
def c8BadEdgeRow : CsvEdgeRow :=
  { source := none, target := some "g", id := none, name := none, type := none }

/-- A valid tabular edge row for the witness batch. -/
def c8GoodEdgeRow : CsvEdgeRow :=
  { source := some "g", target := some "g", id := none, name := none, type := none }

/-! ### Helper lemmas about the store loops -/

theorem Store.addNode_fst_edges (g : Store) (n : StoreNode) :
    (g.addNode n).1.edges = g.edges := by
  unfold Store.addNode
  split <;> rfl

theorem Store.addNode_fst_nodes_length (g : Store) (n : StoreNode) :
    (g.addNode n).1.nodes.length = g.nodes.length + 1 := by
  unfold Store.addNode
  split <;> simp

theorem Store.addNode_of_isSome (g : Store) (n : StoreNode) (h : n.id.isSome) :
    g.addNode n = ({ g with nodes := g.nodes ++ [n] }, n) := by
  unfold Store.addNode
  split
  · rfl
  · rename_i heq
    rw [heq] at h
    simp at h

theorem insertXmlNodes_edges (ns : List NodeData) (g : Store) :
    (insertXmlNodes ns g).edges = g.edges := by
  induction ns generalizing g with
  | nil => rfl
  | cons n ns ih => rw [insertXmlNodes, ih, Store.addNode_fst_edges]

theorem insertXmlNodes_nodes_length (ns : List NodeData) (g : Store) :
    (insertXmlNodes ns g).nodes.length = g.nodes.length + ns.length := by
  induction ns generalizing g with
  | nil => rfl
  | cons n ns ih =>
    rw [insertXmlNodes, ih, Store.addNode_fst_nodes_length]
    simp
    omega

theorem insertXmlEdges_eq (es : List EdgeData) (g : Store) :
    insertXmlEdges es g = { g with edges := g.edges ++ es.map xmlEdgeToStore } := by
  induction es generalizing g with
  | nil => simp [insertXmlEdges]
  | cons e es ih => rw [insertXmlEdges, ih]; simp [Store.addEdge]

theorem processXML_edges (doc : XmlDoc) (g : Store) :
    (processXML doc g).edges = (xmlEdgeRecords doc).map xmlEdgeToStore := by
  rw [processXML, insertXmlEdges_eq]
  simp [insertXmlNodes_edges, Store.clearCells]

theorem processXML_nodes_length (doc : XmlDoc) (g : Store) :
    (processXML doc g).nodes.length = doc.nodeElems.length := by
  rw [processXML, insertXmlEdges_eq]
  simp [insertXmlNodes_nodes_length, Store.clearCells, xmlNodeRecords]

theorem csvNodeGuard_id_isSome {r : CsvNodeRow} (h : csvNodeGuard r = true) :
    (csvNodeToStore r).id.isSome := by
  have h1 : jsTruthy r.id = true := by
    simp only [csvNodeGuard, Bool.and_eq_true] at h
    exact h.1.1.1.1
  cases hid : r.id with
  | none => rw [hid] at h1; simp [jsTruthy] at h1
  | some s => simp [csvNodeToStore, hid]

theorem applyCsvNodeRows_eq (rows : List CsvNodeRow) (g : Store) :
    applyCsvNodeRows rows g =
      ({ g with nodes := g.nodes ++ (rows.filter csvNodeGuard).map csvNodeToStore },
       (rows.filter (fun r => !csvNodeGuard r)).map (fun _ => "Invalid node data")) := by
  induction rows generalizing g with
  | nil => simp [applyCsvNodeRows]
  | cons r rows ih =>
    by_cases h : csvNodeGuard r = true
    · rw [applyCsvNodeRows, if_pos h,
        Store.addNode_of_isSome g (csvNodeToStore r) (csvNodeGuard_id_isSome h), ih]
      simp [h]
    · rw [applyCsvNodeRows, if_neg h, ih]
      simp at h
      simp [h]

theorem applyCsvEdgeRows_eq (rows : List CsvEdgeRow) (g : Store) :
    applyCsvEdgeRows rows g =
      ({ g with edges := g.edges ++ (rows.filter csvEdgeGuard).map csvEdgeToStore },
       (rows.filter (fun e => !csvEdgeGuard e)).map (fun _ => "Invalid edge data")) := by
  induction rows generalizing g with
  | nil => simp [applyCsvEdgeRows]
  | cons e rows ih =>
    by_cases h : csvEdgeGuard e = true
    · rw [applyCsvEdgeRows, if_pos h, ih]
      simp [Store.addEdge, h]
    · rw [applyCsvEdgeRows, if_neg h, ih]
      simp at h
      simp [h]

theorem splitDashes_of_not_hasDashes (s : List Char) (h : hasDashes s = false) :
    splitDashes s = [s] := by
  induction s using splitDashes.induct with
  | case1 => rfl
  | case2 rest ih => simp [hasDashes] at h
  | case3 c rest h1 ih =>
    rw [hasDashes.eq_def] at h
    have hr : hasDashes rest = false := by
      split at h
      all_goals
        first
        | (simp at h; done)
        | (rename_i heq1; simp at heq1; done)
        | (rename_i x1 rest1 heq1
           simp at heq1
           rw [heq1.2]
           exact h)
    rw [splitDashes.eq_def]
    split
    all_goals
      first
      | (rename_i heq2; simp at heq2; done)
      | (rename_i r2 heq2
         simp at heq2
         exact (h1 r2 heq2.1 heq2.2).elim)
      | (rename_i c2 rest2 hx2 heq2
         simp at heq2
         rw [← heq2.1, ← heq2.2, ih hr, consHead])

/-! ### Evaluation and truthiness helper theorems -/

theorem jsTruthy_ne {a : Option String} (h : jsTruthy a = true) :
    a ≠ none ∧ a ≠ some "" := by
  cases a with
  | none => simp [jsTruthy] at h
  | some s =>
    simp [jsTruthy] at h
    simp [h]

theorem parseIntJS_eval_100 : parseIntJS "100" = JSNum.num 100 := by decide

theorem parseIntJS_eval_1 : parseIntJS "1" = JSNum.num 1 := by decide

theorem parseFloatJS_eval_100 : parseFloatJS "100" = JSNum.num 100 := by
  have h : parseFloatJS "100" =
      JSNum.num ((1 : Rat) * ((((100 : Nat) : Rat)) + (((0 : Nat) : Rat)) / (10 : Rat) ^ (0 : Nat))) := rfl
  rw [h]
  norm_num

/-! ### The claims -/

/-- C1, counterexample: the claim says an edge whose endpoint identifier
resolves to no node of the same import is skipped with a diagnostic and
does not appear in the live store.  In both imports of a one-node model
`a` with one edge `a → b`, the dangling edge is inserted into the store
(its target `b` matches no inserted node identifier) and the tabular import
records no diagnostic at all. -/
theorem c1_counterexample :
    (processCSV (fun _ => [c1NodeRow]) (fun _ => [c1EdgeRow]) "n---e" emptyStore).1.nodes.map StoreNode.id = [some "a"]
  ∧ (processCSV (fun _ => [c1NodeRow]) (fun _ => [c1EdgeRow]) "n---e" emptyStore).1.edges.map StoreEdge.target = [some "b"]
  ∧ some "b" ∉ (processCSV (fun _ => [c1NodeRow]) (fun _ => [c1EdgeRow]) "n---e" emptyStore).1.nodes.map StoreNode.id
  ∧ (processCSV (fun _ => [c1NodeRow]) (fun _ => [c1EdgeRow]) "n---e" emptyStore).2.2 = []
  ∧ (processXML c1Doc emptyStore).edges.map StoreEdge.target = [some "b"]
  ∧ some "b" ∉ (processXML c1Doc emptyStore).nodes.map StoreNode.id := by
  refine ⟨by decide, by decide, by decide, by decide, by decide, by decide⟩

/-- C1, amended: neither import validates edge endpoints against the node
set built in the same import.  The markup import inserts every parsed edge
unconditionally; the tabular import skips, with one console diagnostic
each, exactly the edge rows whose source or target field is missing or
empty, and inserts every other edge — dangling or not — without any
diagnostic. -/
theorem c1_amended :
    (∀ (doc : XmlDoc) (g : Store),
      (processXML doc g).edges = (xmlEdgeRecords doc).map xmlEdgeToStore)
  ∧ (∀ (rows : List CsvEdgeRow) (g : Store),
      (applyCsvEdgeRows rows g).1.edges = g.edges ++ (rows.filter csvEdgeGuard).map csvEdgeToStore)
  ∧ (∀ (rows : List CsvEdgeRow) (g : Store),
      (applyCsvEdgeRows rows g).2 = (rows.filter (fun e => !csvEdgeGuard e)).map (fun _ => "Invalid edge data")) := by
  refine ⟨processXML_edges, ?_, ?_⟩ <;> intro rows g <;> rw [applyCsvEdgeRows_eq]

/-- C2, counterexample: the claim says a node omitting fill, stroke and
strokeWidth resolves to stroke "#000" on both import paths.  On the
tabular path a row omitting all three is inserted with stroke left
`undefined`. -/
theorem c2_counterexample :
    (applyCsvNodeRows [c2Row] emptyStore).1.nodes.map (fun n => n.attrs.body.stroke) = [JSVal.undef]
  ∧ JSVal.undef ≠ JSVal.str "#000" := by
  refine ⟨by decide, by decide⟩

/-- C2, amended: a markup node omitting fill, stroke and strokeWidth
resolves to fill "#3366cc", stroke "#000" and strokeWidth 1, but a tabular
node omitting them resolves to fill "#3366cc" and strokeWidth 1 with
stroke left `undefined` (the tabular path applies no stroke default). -/
theorem c2_amended (e : XmlElem) (r : CsvNodeRow)
    (h1 : e.getAttribute "fill" = none) (h2 : e.getAttribute "stroke" = none)
    (h3 : e.getAttribute "strokeWidth" = none)
    (h4 : r.fill = none) (h5 : r.stroke = none) (h6 : r.strokeWidth = none) :
    (xmlNodeToStore (mkXmlNodeData e)).attrs.body =
      { fill := JSVal.str "#3366cc", stroke := JSVal.str "#000", strokeWidth := JSVal.num (JSNum.num 1) }
  ∧ (csvNodeToStore r).attrs.body =
      { fill := JSVal.str "#3366cc", stroke := JSVal.undef, strokeWidth := JSVal.num (JSNum.num 1) } := by
  constructor
  · simp [xmlNodeToStore, mkXmlNodeData, h1, h2, h3, jsOr, jsTruthy, parseIntJS_eval_1]
  · simp [csvNodeToStore, h4, h5, h6, jsOr, jsTruthy, jsValOfOpt, csvStrokeWidthVal]

/-- C2, witness for the amended claim at a concrete element and row. -/
theorem c2_witness :
    (xmlNodeToStore (mkXmlNodeData c2Elem)).attrs.body =
      { fill := JSVal.str "#3366cc", stroke := JSVal.str "#000", strokeWidth := JSVal.num (JSNum.num 1) }
  ∧ (csvNodeToStore c2Row).attrs.body =
      { fill := JSVal.str "#3366cc", stroke := JSVal.undef, strokeWidth := JSVal.num (JSNum.num 1) } :=
  c2_amended c2Elem c2Row (by decide) (by decide) (by decide) rfl rfl rfl

/-- C3, counterexample: the claim says numeric coercion of a present but
non-numeric input yields the supplied default, never a non-finite
sentinel.  A width supplied as "abc" parses to NaN on both import paths,
not to the default 100. -/
theorem c3_counterexample :
    (mkXmlNodeData c3Elem).width = JSNum.nan
  ∧ (csvNodeToStore c3Row).width = JSNum.nan
  ∧ JSNum.nan ≠ JSNum.num 100 := by
  refine ⟨by decide, by decide, by decide⟩

/-- C3, amended: numeric coercion of a missing (or empty) input yields the
supplied default, a finite number, and the stage never fails; but a
present non-numeric input is parsed as-is and yields NaN, a non-finite
sentinel, not the default. -/
theorem c3_amended (e : XmlElem) (r : CsvNodeRow)
    (h1 : e.getAttribute "width" = none) (h2 : e.getAttribute "height" = none)
    (h3 : e.getAttribute "strokeWidth" = none)
    (h4 : r.width = none) (h5 : r.height = none) (h6 : r.strokeWidth = none) :
    (mkXmlNodeData e).width = JSNum.num 100
  ∧ (mkXmlNodeData e).height = JSNum.num 100
  ∧ (mkXmlNodeData e).strokeWidth = JSNum.num 1
  ∧ (csvNodeToStore r).width = JSNum.num 100
  ∧ parseFloatJS (jsOr r.height "100") = JSNum.num 100
  ∧ (csvNodeToStore r).attrs.body.strokeWidth = JSVal.num (JSNum.num 1) := by
  refine ⟨?_, ?_, ?_, ?_, ?_, ?_⟩
  · simp [mkXmlNodeData, h1, jsOr, jsTruthy, parseIntJS_eval_100]
  · simp [mkXmlNodeData, h2, jsOr, jsTruthy, parseIntJS_eval_100]
  · simp [mkXmlNodeData, h3, jsOr, jsTruthy, parseIntJS_eval_1]
  · simp [csvNodeToStore, h4, jsOr, jsTruthy, parseFloatJS_eval_100]
  · simp [h5, jsOr, jsTruthy, parseFloatJS_eval_100]
  · simp [csvNodeToStore, h6, csvStrokeWidthVal, jsTruthy]

/-- C3, witness for the amended claim at a concrete element and row. -/
theorem c3_witness :
    (mkXmlNodeData c3DefaultElem).width = JSNum.num 100
  ∧ (mkXmlNodeData c3DefaultElem).height = JSNum.num 100
  ∧ (mkXmlNodeData c3DefaultElem).strokeWidth = JSNum.num 1
  ∧ (csvNodeToStore c3DefaultRow).width = JSNum.num 100
  ∧ parseFloatJS (jsOr c3DefaultRow.height "100") = JSNum.num 100
  ∧ (csvNodeToStore c3DefaultRow).attrs.body.strokeWidth = JSVal.num (JSNum.num 1) :=
  c3_amended c3DefaultElem c3DefaultRow (by decide) (by decide) (by decide) rfl rfl rfl

/-- C4, counterexample: the claim says every node placed into the live
store has finite numeric position coordinates.  A markup node whose x
attribute is "abc", and a tabular row whose x field is the empty string
(which passes the guard's undefined-check), are both inserted with
x = NaN. -/
theorem c4_counterexample :
    (processXML c4Doc emptyStore).nodes.map StoreNode.x = [JSNum.nan]
  ∧ (applyCsvNodeRows [c4Row] emptyStore).1.nodes.map StoreNode.x = [JSNum.nan] := by
  refine ⟨by decide, by decide⟩

/-- C4, amended: every node the tabular import inserts comes from a row
whose identifier, label and shape kind are present and nonempty and whose
position fields are present, and it carries the complete style/position
payload; the markup import inserts one node per element with no field
validation at all; but the numeric position and size values are not
guaranteed finite — a non-numeric or empty numeric input yields NaN,
which is inserted as-is. -/
theorem c4_amended (g : Store) (rows : List CsvNodeRow) (r : CsvNodeRow)
    (h : csvNodeGuard r = true) (doc : XmlDoc) (g2 : Store) :
    (applyCsvNodeRows rows g).1.nodes = g.nodes ++ (rows.filter csvNodeGuard).map csvNodeToStore
  ∧ (r.id ≠ none ∧ r.id ≠ some "" ∧ r.label ≠ none ∧ r.label ≠ some ""
      ∧ r.type ≠ none ∧ r.type ≠ some "" ∧ r.x.isSome ∧ r.y.isSome)
  ∧ (processXML doc g2).nodes.length = doc.nodeElems.length := by
  refine ⟨by rw [applyCsvNodeRows_eq], ?_, processXML_nodes_length doc g2⟩
  simp only [csvNodeGuard, Bool.and_eq_true] at h
  obtain ⟨⟨⟨⟨hid, hlabel⟩, hx⟩, hy⟩, htype⟩ := h
  obtain ⟨hid1, hid2⟩ := jsTruthy_ne hid
  obtain ⟨hl1, hl2⟩ := jsTruthy_ne hlabel
  obtain ⟨ht1, ht2⟩ := jsTruthy_ne htype
  exact ⟨hid1, hid2, hl1, hl2, ht1, ht2, hx, hy⟩

/-- C4, witness for the amended claim at a concrete store, batch, row and
document. -/
theorem c4_witness :
    (applyCsvNodeRows [c1NodeRow] emptyStore).1.nodes
      = emptyStore.nodes ++ ([c1NodeRow].filter csvNodeGuard).map csvNodeToStore
  ∧ (c1NodeRow.id ≠ none ∧ c1NodeRow.id ≠ some "" ∧ c1NodeRow.label ≠ none ∧ c1NodeRow.label ≠ some ""
      ∧ c1NodeRow.type ≠ none ∧ c1NodeRow.type ≠ some "" ∧ c1NodeRow.x.isSome ∧ c1NodeRow.y.isSome)
  ∧ (processXML c4Doc emptyStore).nodes.length = c4Doc.nodeElems.length :=
  c4_amended emptyStore [c1NodeRow] c1NodeRow (by decide) c4Doc emptyStore

/-- C5, confirmed: a tabular input that does not contain the `---`
separator leaves the store untouched (no clear, no insertion), produces
exactly the single fatal banner message, and records no per-record
diagnostics — whatever the external CSV parser would have returned. -/
theorem c5_no_separator_no_mutation
    (papaNodes : String → List CsvNodeRow) (papaEdges : String → List CsvEdgeRow)
    (csvContent : String) (g : Store)
    (h : hasDashes csvContent.toList = false) :
    processCSV papaNodes papaEdges csvContent g = (g, some csvFormatError, []) := by
  unfold processCSV
  rw [splitDashes_of_not_hasDashes _ h]
  simp [jsTruthy]

/-- C5, witness at a concrete separator-free input. -/
theorem c5_witness :
    processCSV (fun _ => [c1NodeRow]) (fun _ => [c1EdgeRow]) "id,label,x,y,type" emptyStore
      = (emptyStore, some csvFormatError, []) :=
  c5_no_separator_no_mutation _ _ _ _ (by decide)

/-- C6, confirmed: on both import paths a node whose shape kind is
"rectangle" gets render height 50 regardless of the supplied height, and a
node of any other shape kind keeps the supplied-or-defaulted height
unchanged. -/
theorem c6_rectangle_height_override (n : NodeData) (v : JSNum) (r : CsvNodeRow) :
    (xmlNodeToStore n).height = (if n.type = some "rectangle" then JSNum.num 50 else n.height)
  ∧ (xmlNodeToStore { n with height := v }).height = (if n.type = some "rectangle" then JSNum.num 50 else v)
  ∧ (csvNodeToStore r).height = (if r.type = some "rectangle" then JSNum.num 50 else parseFloatJS (jsOr r.height "100")) :=
  ⟨rfl, rfl, rfl⟩

/-- C7, counterexample: the claim says the copy action returns the
controller to the idle (no-selection) state.  After copying the selected
node "n1" the selection slot still holds "n1": only the dialog flag is
reset. -/
theorem c7_counterexample :
    (handleCopyNode c7Store c7State).2.selectedNode = some "n1"
  ∧ some "n1" ≠ (none : Option String) := by
  refine ⟨by decide, by decide⟩

/-- C7, amended: invoking copy on a selected node N present in the store
adds exactly one new node at (x+100, y+100) with identical label, shape,
size and style (its identifier assigned by the store), adds exactly one
new dashed black edge from N to the copy, and closes the dialog — but the
selection slot retains N's identifier instead of returning to a
no-selection state. -/
theorem c7_amended (g : Store) (st : AppState) (sel : String) (n : StoreNode)
    (h1 : st.selectedNode = some sel) (h2 : ¬ sel = "")
    (h3 : g.getCellById sel = some n) :
    (handleCopyNode g st).1.nodes =
      g.nodes ++ [{ n with id := some ("cell-" ++ toString g.fresh),
                           x := jsAdd n.x (JSNum.num 100),
                           y := jsAdd n.y (JSNum.num 100) }]
  ∧ (handleCopyNode g st).1.edges =
      g.edges ++ [{ source := n.id, target := some ("cell-" ++ toString g.fresh),
                    attrs := copyEdgeAttrs }]
  ∧ (handleCopyNode g st).2 = { showModal := false, selectedNode := some sel } := by
  unfold handleCopyNode
  rw [h1]
  simp [h2, h3, Store.addNode, Store.addEdge]

/-- C7, witness for the amended claim at a concrete store and selection. -/
theorem c7_witness :
    (handleCopyNode c7Store c7State).1.nodes =
      c7Store.nodes ++ [{ c7Node with id := some ("cell-" ++ toString c7Store.fresh),
                                      x := jsAdd c7Node.x (JSNum.num 100),
                                      y := jsAdd c7Node.y (JSNum.num 100) }]
  ∧ (handleCopyNode c7Store c7State).1.edges =
      c7Store.edges ++ [{ source := c7Node.id, target := some ("cell-" ++ toString c7Store.fresh),
                          attrs := copyEdgeAttrs }]
  ∧ (handleCopyNode c7Store c7State).2 = { showModal := false, selectedNode := some "n1" } :=
  c7_amended c7Store c7State "n1" c7Node rfl (by decide) (by decide)

/-- C8, confirmed: with the separator present, a tabular node row missing
its identifier, label, x, y or type field, or an edge row missing its
source or target field, is skipped with one diagnostic, and removing it
from the batch changes neither the resulting store contents nor the fate
of any other row. -/
theorem c8_malformed_row_skipped
    (g g2 : Store) (l1 l2 : List CsvNodeRow) (r : CsvNodeRow)
    (hr : r.id = none ∨ r.label = none ∨ r.x = none ∨ r.y = none ∨ r.type = none)
    (m1 m2 : List CsvEdgeRow) (e : CsvEdgeRow)
    (he : e.source = none ∨ e.target = none) :
    (applyCsvNodeRows (l1 ++ r :: l2) g).1 = (applyCsvNodeRows (l1 ++ l2) g).1
  ∧ (applyCsvNodeRows (l1 ++ r :: l2) g).2.length = (applyCsvNodeRows (l1 ++ l2) g).2.length + 1
  ∧ (applyCsvEdgeRows (m1 ++ e :: m2) g2).1 = (applyCsvEdgeRows (m1 ++ m2) g2).1
  ∧ (applyCsvEdgeRows (m1 ++ e :: m2) g2).2.length = (applyCsvEdgeRows (m1 ++ m2) g2).2.length + 1 := by
  have hgr : csvNodeGuard r = false := by
    rcases hr with h | h | h | h | h <;> simp [csvNodeGuard, h, jsTruthy]
  have hge : csvEdgeGuard e = false := by
    rcases he with h | h <;> simp [csvEdgeGuard, h, jsTruthy]
  refine ⟨?_, ?_, ?_, ?_⟩ <;>
    simp [applyCsvNodeRows_eq, applyCsvEdgeRows_eq, List.filter_append, hgr, hge] <;>
    omega

/-- C8, witness at a concrete batch: one bad node row between two good
copies, and one bad edge row between two good copies. -/
theorem c8_witness :
    (applyCsvNodeRows ([c8GoodNodeRow] ++ c8BadNodeRow :: [c8GoodNodeRow]) emptyStore).1
      = (applyCsvNodeRows ([c8GoodNodeRow] ++ [c8GoodNodeRow]) emptyStore).1
  ∧ (applyCsvNodeRows ([c8GoodNodeRow] ++ c8BadNodeRow :: [c8GoodNodeRow]) emptyStore).2.length
      = (applyCsvNodeRows ([c8GoodNodeRow] ++ [c8GoodNodeRow]) emptyStore).2.length + 1
  ∧ (applyCsvEdgeRows ([c8GoodEdgeRow] ++ c8BadEdgeRow :: [c8GoodEdgeRow]) emptyStore).1
      = (applyCsvEdgeRows ([c8GoodEdgeRow] ++ [c8GoodEdgeRow]) emptyStore).1
  ∧ (applyCsvEdgeRows ([c8GoodEdgeRow] ++ c8BadEdgeRow :: [c8GoodEdgeRow]) emptyStore).2.length
      = (applyCsvEdgeRows ([c8GoodEdgeRow] ++ [c8GoodEdgeRow]) emptyStore).2.length + 1 :=
  c8_malformed_row_skipped emptyStore emptyStore [c8GoodNodeRow] [c8GoodNodeRow] c8BadNodeRow
    (Or.inl rfl) [c8GoodEdgeRow] [c8GoodEdgeRow] c8BadEdgeRow (Or.inl rfl)

/-- C9, confirmed: the markup import produces exactly one node record per
`node` element, in document order, and each record's identifier is the
corresponding element's id attribute. -/
theorem c9_markup_node_records (doc : XmlDoc) :
    (xmlNodeRecords doc).length = doc.nodeElems.length
  ∧ (xmlNodeRecords doc).map NodeData.id = doc.nodeElems.map (fun e => e.getAttribute "id") := by
  constructor
  · simp [xmlNodeRecords]
  · rw [xmlNodeRecords, List.map_map]
    rfl

/-- C10, confirmed: every markup-imported edge carries a label sub-payload
whose text is the edge's name attribute when present (and nonempty) and
the empty string otherwise, while every tabular-imported edge carries no
label sub-payload at all, whatever its name field holds. -/
theorem c10_edge_labels (e : XmlElem) (r : CsvEdgeRow) :
    (xmlEdgeToStore (mkXmlEdgeData e)).attrs.label
      = some { text := (e.getAttribute "name").getD "", fill := "#333", fontSize := JSNum.num 12 }
  ∧ (csvEdgeToStore r).attrs.label = none := by
  constructor
  · simp only [xmlEdgeToStore, mkXmlEdgeData]
    congr 1
    cases hn : e.getAttribute "name" with
    | none => simp [jsOr, jsOrUndef, jsTruthy]
    | some s =>
      by_cases hs : s = ""
      · simp [jsOr, jsOrUndef, jsTruthy, hs]
      · simp [jsOr, jsOrUndef, jsTruthy, hs]
  · rfl
